import Mathlib

/-
Verification of the eventRSVP backend (felixLandlord/eventRSVP).

This file gives a shallow embedding, in Lean 4, of the parts of the Python
backend that the verified properties are about:

* `backend/services/qr_service.py`     — QR credential issue / decode / validate
* `backend/repository/ticket_repository.py` — ticket inventory counters
* `backend/repository/rsvp_repository.py`   — RSVP ledger access
* `backend/repository/event_repository.py`  — event lookup / creation
* `backend/services/rsvp_service.py`   — createRSVP / cancelRSVP / checkInAttendee
* `backend/services/event_service.py`  — createEvent and the free-tier provisioning
* `backend/graphql_api/mutation.py`    — the validate_qr_code mutation

Modelling conventions:
* Python ints are modelled as `Int` (ids, counters, organizer ids).  The ticket
  `price` is a Python float but the only value the modelled code ever writes is
  the literal `0.0`, modelled exactly as `(0 : Int)`.
* Timestamps (`datetime.now(timezone.utc)`) are modelled as an abstract clock
  value of type `Int` passed in as a parameter `now`.
* The database is a record of lists of rows; SQL `SELECT ... WHERE` with
  `.first()` is `List.find?` (insertion order), and `UPDATE ... WHERE` maps the
  update over all rows matching the `WHERE` clause, exactly as SQL does.
* Columns never read by any modelled code path (`created_at`, `updated_at`,
  `notes`, soft-delete flags, event title/date fields, ...) are omitted from
  the row types; no modelled operation reads or branches on them.
* Repository calls that the service awaits can fail transiently at the storage
  layer; `Faults` injects such a failure at a chosen call site, modelling the
  exception propagating out of the service (there is no try/except around these
  calls in `rsvp_service.py`).
* `EmailService.send_rsvp_confirmation` (email_service.py lines 200-223)
  returns `False` on any dispatch problem and does not raise into the service,
  so it is modelled as a pure trace event.
-/

set_option autoImplicit false

namespace EventRSVP

/-! ## JSON fragment

`qr_service.py` serialises the credential payload with
`json.dumps(qr_data, separators=(",", ":"))` and decodes scanned data with
`json.loads`.  The payloads this system produces are flat JSON objects whose
keys are plain (escape-free) strings and whose values are nonnegative integers
or plain strings, so the model implements exactly that fragment: an object of
`"key":value` pairs with integer or string values, no whitespace, no escapes,
with full-input consumption required.  On every string this system feeds to
`json.loads` — canonical payload strings, and non-JSON strings such as
`data:image/png;base64,...` (which fail at the first character) — the fragment
parser agrees with `json.loads` followed by the dict check in
`decode_qr_data`. -/

/-- A JSON value of the fragment used by the QR payloads: integers and
strings at the leaves (the payloads are flat objects, represented as
association lists of fields). -/
inductive JValue where
  | int (n : Int)
  | str (s : String)
  deriving DecidableEq, Repr

/-- Field lookup in a decoded JSON object, i.e. Python `dict.get`:
first binding of the key (the payloads have no duplicate keys). -/
def jget (d : List (String × JValue)) (k : String) : Option JValue :=
  (d.find? (fun p => p.1 == k)).map (fun p => p.2)

/-- The opening-brace character of JSON object syntax. -/
def openBraceChar : Char := Char.ofNat 123

/-- The closing-brace character of JSON object syntax. -/
def closeBraceChar : Char := Char.ofNat 125

/-- Is `c` an ASCII digit? -/
def isDigitChar (c : Char) : Bool :=
  decide (48 ≤ c.toNat) && decide (c.toNat ≤ 57)

/-- Numeric value of an ASCII digit. -/
def digitVal (c : Char) : Nat := c.toNat - 48

/-- The ASCII digit for `d < 10` (used to model Python `str` of an int). -/
def digitChar (d : Nat) : Char :=
  if d = 0 then '0'
  else if d = 1 then '1'
  else if d = 2 then '2'
  else if d = 3 then '3'
  else if d = 4 then '4'
  else if d = 5 then '5'
  else if d = 6 then '6'
  else if d = 7 then '7'
  else if d = 8 then '8'
  else '9'

/-- Decimal digit characters of `n`, most significant first, accumulated onto
`acc`; models Python `str(n)` for nonnegative `n` (via `json.dumps`). -/
def natDigitsCore (n : Nat) (acc : List Char) : List Char :=
  if h : n < 10 then digitChar n :: acc
  else natDigitsCore (n / 10) (digitChar (n % 10) :: acc)
  termination_by n
  decreasing_by exact Nat.div_lt_self (by omega) (by omega)

/-- Decimal representation of `n`, as a character list. -/
def natDigits (n : Nat) : List Char := natDigitsCore n []

/-- Consume a maximal run of digits, folding them onto the accumulator
(the core loop of integer parsing). -/
def parseNatLoop : List Char → Nat → Nat × List Char
  | [], acc => (acc, [])
  | c :: cs, acc =>
    if isDigitChar c then parseNatLoop cs (acc * 10 + digitVal c)
    else (acc, c :: cs)

/-- Parse a JSON integer token (a nonempty digit run). -/
def parseNatTok (cs : List Char) : Option (Nat × List Char) :=
  match cs with
  | [] => none
  | c :: _ => if isDigitChar c then some (parseNatLoop cs 0) else none

/-- Parse the body of a JSON string literal (opening quote already consumed);
the payload strings contain no escapes. -/
def parseStrLoop : List Char → List Char → Option (String × List Char)
  | [], _ => none
  | c :: cs, acc =>
    if c == '"' then some (String.mk acc, cs)
    else parseStrLoop cs (acc ++ [c])

/-- Parse one JSON value of the fragment: a string or a nonnegative integer. -/
def parseValueTok (cs : List Char) : Option (JValue × List Char) :=
  match cs with
  | [] => none
  | c :: rest =>
    if c == '"' then
      (parseStrLoop rest []).map (fun p => (JValue.str p.1, p.2))
    else if isDigitChar c then
      (parseNatTok cs).map (fun p => (JValue.int (p.1 : Int), p.2))
    else none

/-- Parse the `"key":value` fields of a JSON object (opening brace already
consumed), up to and including the closing brace.  `fuel` bounds the number of
fields; callers pass the input length, which suffices since every field
consumes at least one character. -/
def parseFieldsLoop (fuel : Nat) (cs : List Char) (acc : List (String × JValue)) :
    Option (List (String × JValue) × List Char) :=
  match fuel with
  | 0 => none
  | fuel + 1 =>
    match cs with
    | '"' :: rest =>
      match parseStrLoop rest [] with
      | none => none
      | some (key, afterKey) =>
        match afterKey with
        | ':' :: vcs =>
          match parseValueTok vcs with
          | none => none
          | some (v, afterV) =>
            match afterV with
            | [] => none
            | c :: more =>
              if c == ',' then parseFieldsLoop fuel more (acc ++ [(key, v)])
              else if c == closeBraceChar then some (acc ++ [(key, v)], more)
              else none
        | _ => none
    | _ => none

/-- Model of `json.loads` on the fragment: a flat object, with the whole input
consumed.  Inputs whose first character cannot start a JSON value (such as the
`d` of a `data:` URI) fail, exactly as `json.loads` raises `JSONDecodeError`. -/
def jsonParse (s : String) : Option (List (String × JValue)) :=
  match s.data with
  | [] => none
  | c :: rest =>
    if c == openBraceChar then
      match parseFieldsLoop (rest.length + 1) rest [] with
      | some (fields, []) => some fields
      | _ => none
    else none

/-! ## QR credential service (`backend/services/qr_service.py`) -/

/-- The JSON payload string embedded in the QR image by `generate_rsvp_qr`
(qr_service.py lines 17 and 27):
`json.dumps({"user_id": u, "event_id": e, "type": "rsvp_checkin"},
separators=(",", ":"))`, for the nonnegative ids the generator accepts. -/
def qrPayloadString (u e : Nat) : String :=
  String.mk
    (("\x7b\"user_id\":").data ++ natDigits u ++
     (",\"event_id\":").data ++ natDigits e ++
     (",\"type\":\"rsvp_checkin\"\x7d").data)

/-- Model of `QRGenerator.generate_rsvp_qr` (qr_service.py lines 11-39): checks
`user_id <= 0 or event_id <= 0` (raising `ValueError`), embeds the JSON payload
in a QR image, and returns the PNG as a base64 data URI.  The PNG bytes depend
on the `qrcode` library; `img` stands for their base64 encoding (base64 output
is alphanumeric with `+/=`, never a brace). -/
def QRGenerator.generate_rsvp_qr (user_id event_id : Int) (img : String) :
    Except String String :=
  if user_id ≤ 0 ∨ event_id ≤ 0 then
    Except.error "user_id and event_id must be positive integers"
  else
    Except.ok ("data:image/png;base64," ++ img)

/-- Model of `QRGenerator.decode_qr_data` (qr_service.py lines 41-54): empty
input gives `{}`; otherwise `json.loads`, returning the decoded dict when it is
a dict containing the key `"type"`, and `{}` on parse failure, non-dict result,
or missing `"type"`. -/
def QRGenerator.decode_qr_data (qr_data : String) : List (String × JValue) :=
  if qr_data.data.isEmpty then []
  else
    match jsonParse qr_data with
    | some decoded => if (jget decoded "type").isSome then decoded else []
    | none => []

/-- Model of `QRGenerator.validate_rsvp_qr_data` (qr_service.py lines 56-69):
requires the fields `user_id`, `event_id`, `type`; `type = "rsvp_checkin"`;
and integer `user_id > 0` and `event_id > 0`. -/
def QRGenerator.validate_rsvp_qr_data (qr_data : List (String × JValue)) : Bool :=
  (jget qr_data "user_id").isSome &&
  (jget qr_data "event_id").isSome &&
  (jget qr_data "type").isSome &&
  decide (jget qr_data "type" = some (JValue.str "rsvp_checkin")) &&
  (match jget qr_data "user_id" with
   | some (JValue.int u) => decide (0 < u)
   | _ => false) &&
  (match jget qr_data "event_id" with
   | some (JValue.int e) => decide (0 < e)
   | _ => false)

/-! ## Data model

Row types for the three tables the claims are about
(`backend/models/` + `backend/schemas/`), keeping the columns the modelled
code reads or writes. -/

/-- RSVP status enumeration (`backend/schemas/rsvp_schema.py` `RSVPStatus`). -/
inductive RSVPStatus where
  | pending
  | confirmed
  | cancelled
  | attended
  | no_show
  deriving DecidableEq, Repr

/-- An `events` row (`backend/models/event_model.py`): the columns read by the
modelled services. -/
structure Event where
  id : Int
  organizer_id : Int
  max_attendees : Option Int
  is_free : Bool
  deriving DecidableEq, Repr

/-- A `tickets` row (`backend/models/ticket_model.py`). -/
structure Ticket where
  id : Int
  event_id : Int
  name : String
  price : Int
  quantity_total : Int
  quantity_sold : Int
  deriving DecidableEq, Repr

/-- An `rsvps` row (`backend/models/rsvp_model.py`). -/
structure RSVP where
  id : Int
  event_id : Int
  user_id : Int
  ticket_id : Int
  status : RSVPStatus
  qr_code : Option String
  checked_in_at : Option Int
  deriving DecidableEq, Repr

/-- The database state: the three tables (rows in insertion order) and the
autoincrement counters for the primary keys. -/
structure DB where
  events : List Event
  tickets : List Ticket
  rsvps : List RSVP
  nextEventId : Int
  nextTicketId : Int
  nextRsvpId : Int
  deriving DecidableEq, Repr

/-! ## Repositories

Each definition models one static method of `backend/repository/`.
`SELECT ... .first()` is `List.find?`; `UPDATE ... WHERE` rewrites every row
matching the `WHERE` clause.  Rowcount return values are unused by the
modelled services and are dropped. -/

/-- `EventRepository.get_by_id` (event_repository.py lines 28-32):
`SELECT * FROM events WHERE id = event_id`, first row. -/
def EventRepository.get_by_id (db : DB) (event_id : Int) : Option Event :=
  db.events.find? (fun e => e.id == event_id)

/-- `TicketRepository.get_by_id` (ticket_repository.py lines 19-24). -/
def TicketRepository.get_by_id (db : DB) (ticket_id : Int) : Option Ticket :=
  db.tickets.find? (fun t => t.id == ticket_id)

/-- `TicketRepository.increment_sold_count` (ticket_repository.py lines 70-80):
`UPDATE tickets SET quantity_sold = quantity_sold + 1 WHERE id = ticket_id` —
an unconditional increment, with no capacity test in the statement. -/
def TicketRepository.increment_sold_count (db : DB) (ticket_id : Int) : DB :=
  { db with
    tickets := db.tickets.map (fun t =>
      if t.id == ticket_id then { t with quantity_sold := t.quantity_sold + 1 }
      else t) }

/-- `TicketRepository.decrement_sold_count` (ticket_repository.py lines 82-92):
`UPDATE tickets SET quantity_sold = greatest(quantity_sold - 1, 0)
WHERE id = ticket_id`. -/
def TicketRepository.decrement_sold_count (db : DB) (ticket_id : Int) : DB :=
  { db with
    tickets := db.tickets.map (fun t =>
      if t.id == ticket_id then
        { t with quantity_sold := max (t.quantity_sold - 1) 0 }
      else t) }

/-- `RSVPRepository.get_by_id` (rsvp_repository.py lines 24-29). -/
def RSVPRepository.get_by_id (db : DB) (rsvp_id : Int) : Option RSVP :=
  db.rsvps.find? (fun r => r.id == rsvp_id)

/-- `RSVPRepository.get_by_user_and_event` (rsvp_repository.py lines 53-60):
`SELECT * FROM rsvps WHERE user_id = ... AND event_id = ...`, first row.
Note: no condition on `status` — cancelled rows are matched too. -/
def RSVPRepository.get_by_user_and_event (db : DB) (user_id event_id : Int) :
    Option RSVP :=
  db.rsvps.find? (fun r => r.user_id == user_id && r.event_id == event_id)

/-- The column values `RSVPService.create_rsvp` supplies for a new ledger row
(`RSVPCreate` in rsvp_schema.py). -/
structure RSVPCreateData where
  event_id : Int
  user_id : Int
  ticket_id : Int
  status : RSVPStatus
  qr_code : Option String
  deriving Repr

/-- `RSVPRepository.create` (rsvp_repository.py lines 15-22): INSERT a row,
the primary key assigned by the database; returns the refreshed row. -/
def RSVPRepository.create (db : DB) (rsvp_data : RSVPCreateData) : RSVP × DB :=
  let row : RSVP :=
    { id := db.nextRsvpId
      event_id := rsvp_data.event_id
      user_id := rsvp_data.user_id
      ticket_id := rsvp_data.ticket_id
      status := rsvp_data.status
      qr_code := rsvp_data.qr_code
      checked_in_at := none }
  (row, { db with rsvps := db.rsvps ++ [row], nextRsvpId := db.nextRsvpId + 1 })

/-- `RSVPRepository.update_status` (rsvp_repository.py lines 89-104):
`UPDATE rsvps SET status = ... WHERE id = rsvp_id`, also setting
`checked_in_at` only when a (truthy) value was passed. -/
def RSVPRepository.update_status (db : DB) (rsvp_id : Int) (status : RSVPStatus)
    (checked_in_at : Option Int) : DB :=
  { db with
    rsvps := db.rsvps.map (fun r =>
      if r.id == rsvp_id then
        { r with
          status := status
          checked_in_at :=
            match checked_in_at with
            | some t => some t
            | none => r.checked_in_at }
      else r) }

/-- The column values `EventService.create_event` supplies for a new event row
(`EventCreate` in event_schema.py, restricted to the modelled columns). -/
structure EventCreateData where
  organizer_id : Int
  max_attendees : Option Int
  is_free : Bool
  deriving Repr

/-- `EventRepository.create` (event_repository.py, INSERT of an `Event` row
with a database-assigned primary key). -/
def EventRepository.create (db : DB) (event_data : EventCreateData) : Event × DB :=
  let row : Event :=
    { id := db.nextEventId
      organizer_id := event_data.organizer_id
      max_attendees := event_data.max_attendees
      is_free := event_data.is_free }
  (row, { db with events := db.events ++ [row], nextEventId := db.nextEventId + 1 })

/-- The column values `EventService.create_event` supplies for the default
ticket (`TicketCreate` in ticket_schema.py; `quantity_sold` defaults to 0). -/
structure TicketCreateData where
  event_id : Int
  name : String
  price : Int
  quantity_total : Int
  deriving Repr

/-- `TicketRepository.create` (ticket_repository.py lines 10-17): INSERT a
ticket row with a database-assigned primary key. -/
def TicketRepository.create (db : DB) (ticket_data : TicketCreateData) :
    Ticket × DB :=
  let row : Ticket :=
    { id := db.nextTicketId
      event_id := ticket_data.event_id
      name := ticket_data.name
      price := ticket_data.price
      quantity_total := ticket_data.quantity_total
      quantity_sold := 0 }
  (row, { db with tickets := db.tickets ++ [row], nextTicketId := db.nextTicketId + 1 })

/-! ## RSVP service (`backend/services/rsvp_service.py`) -/

/-- The `RSVPInput` GraphQL input (graphql_api/types.py lines 133-135). -/
structure RSVPInput where
  event_id : Int
  ticket_id : Int
  deriving Repr

/-- The errors (`ValueError` messages) the modelled operations raise. -/
inductive SvcError where
  | eventNotFound
  | invalidTicket
  | duplicateRSVP
  | soldOut
  | invalidQRInput
  | storageFailure
  | rsvpNotFound
  | unauthorizedCheckIn
  | alreadyCheckedIn
  | rsvpNotFoundOrUnauthorized
  | cancelAfterAttend
  | invalidQRCode
  | qrEventMismatch
  deriving DecidableEq, Repr

instance {ε α : Type} [DecidableEq ε] [DecidableEq α] : DecidableEq (Except ε α)
  | Except.ok a, Except.ok b =>
    if h : a = b then isTrue (by rw [h])
    else isFalse (by intro hc; cases hc; exact h rfl)
  | Except.ok _, Except.error _ => isFalse (by intro hc; cases hc)
  | Except.error _, Except.ok _ => isFalse (by intro hc; cases hc)
  | Except.error e, Except.error f =>
    if h : e = f then isTrue (by rw [h])
    else isFalse (by intro hc; cases hc; exact h rfl)

/-- The externally visible side effects of `create_rsvp`, in the order the
code performs them. -/
inductive Eff where
  | ledgerInsert
  | inventoryIncrement
  | notifyDispatch
  deriving DecidableEq, Repr

/-- Transient storage-failure injection: which awaited repository write (if
any) raises.  `rsvp_service.py` wraps none of these calls in try/except, so an
injected failure propagates out of the service at that point. -/
structure Faults where
  failLedgerInsert : Bool
  failIncrement : Bool
  deriving Repr

/-- A run with no injected storage failure. -/
def noFaults : Faults := ⟨false, false⟩

/-- The outcome of a `create_rsvp` call: the returned projection or the raised
error, the database afterwards, and the trace of side effects performed. -/
structure CreateOut where
  res : Except SvcError RSVP
  db : DB
  trace : List Eff
  deriving Repr

/-- Model of `RSVPService.create_rsvp` (rsvp_service.py lines 15-61), step for
step:
1. load event, failing when absent (lines 18-20);
2. load ticket, failing when absent or `ticket.event_id != rsvp_data.event_id`
   (lines 22-24);
3. duplicate check via `get_by_user_and_event` (lines 27-31);
4. sold-out test `quantity_sold >= quantity_total` on the row read in step 2
   (lines 33-34);
5. QR generation (line 36), which raises for non-positive ids;
6. ledger INSERT of the confirmed row (lines 38-46);
7. unconditional inventory increment (line 48);
8. confirmation e-mail dispatch (line 50), which never raises.
`img` stands for the base64 PNG body of the generated QR data URI. -/
def RSVPService.create_rsvp (faults : Faults) (db : DB) (rsvp_data : RSVPInput)
    (user_id : Int) (img : String) : CreateOut :=
  match EventRepository.get_by_id db rsvp_data.event_id with
  | none => ⟨Except.error SvcError.eventNotFound, db, []⟩
  | some _event =>
    match TicketRepository.get_by_id db rsvp_data.ticket_id with
    | none => ⟨Except.error SvcError.invalidTicket, db, []⟩
    | some ticket =>
      if ticket.event_id != rsvp_data.event_id then
        ⟨Except.error SvcError.invalidTicket, db, []⟩
      else
        match RSVPRepository.get_by_user_and_event db user_id rsvp_data.event_id with
        | some _existing => ⟨Except.error SvcError.duplicateRSVP, db, []⟩
        | none =>
          if ticket.quantity_sold ≥ ticket.quantity_total then
            ⟨Except.error SvcError.soldOut, db, []⟩
          else
            match QRGenerator.generate_rsvp_qr user_id rsvp_data.event_id img with
            | Except.error _ => ⟨Except.error SvcError.invalidQRInput, db, []⟩
            | Except.ok qr_code =>
              if faults.failLedgerInsert then
                ⟨Except.error SvcError.storageFailure, db, []⟩
              else
                let created :=
                  RSVPRepository.create db
                    { event_id := rsvp_data.event_id
                      user_id := user_id
                      ticket_id := rsvp_data.ticket_id
                      status := RSVPStatus.confirmed
                      qr_code := some qr_code }
                if faults.failIncrement then
                  ⟨Except.error SvcError.storageFailure, created.2, [Eff.ledgerInsert]⟩
                else
                  ⟨Except.ok created.1,
                   TicketRepository.increment_sold_count created.2 rsvp_data.ticket_id,
                   [Eff.ledgerInsert, Eff.inventoryIncrement, Eff.notifyDispatch]⟩

/-- The outcome of a check-in or cancellation call: the returned message or
raised error, and the database afterwards. -/
structure OpOut where
  res : Except SvcError String
  db : DB
  deriving Repr

/-- Model of `RSVPService.check_in_attendee` (rsvp_service.py lines 63-80):
load the RSVP (not-found check), load its event (unauthorized when absent or
owned by a different organizer), reject when the status is already
`attended`, else set status `attended` and stamp `checked_in_at` with the
current time `now`. -/
def RSVPService.check_in_attendee (db : DB) (rsvp_id organizer_id : Int)
    (now : Int) : OpOut :=
  match RSVPRepository.get_by_id db rsvp_id with
  | none => ⟨Except.error SvcError.rsvpNotFound, db⟩
  | some rsvp =>
    match EventRepository.get_by_id db rsvp.event_id with
    | none => ⟨Except.error SvcError.unauthorizedCheckIn, db⟩
    | some event =>
      if event.organizer_id != organizer_id then
        ⟨Except.error SvcError.unauthorizedCheckIn, db⟩
      else if rsvp.status == RSVPStatus.attended then
        ⟨Except.error SvcError.alreadyCheckedIn, db⟩
      else
        ⟨Except.ok "Attendee checked in successfully!",
         RSVPRepository.update_status db rsvp_id RSVPStatus.attended (some now)⟩

/-- Model of `RSVPService.cancel_rsvp` (rsvp_service.py lines 82-95): load the
RSVP (not-found / ownership check), reject only when the status is `attended`,
else set status `cancelled` and decrement the tier's sold count. -/
def RSVPService.cancel_rsvp (db : DB) (rsvp_id user_id : Int) : OpOut :=
  match RSVPRepository.get_by_id db rsvp_id with
  | none => ⟨Except.error SvcError.rsvpNotFoundOrUnauthorized, db⟩
  | some rsvp =>
    if rsvp.user_id != user_id then
      ⟨Except.error SvcError.rsvpNotFoundOrUnauthorized, db⟩
    else if rsvp.status == RSVPStatus.attended then
      ⟨Except.error SvcError.cancelAfterAttend, db⟩
    else
      ⟨Except.ok "RSVP cancelled successfully!",
       TicketRepository.decrement_sold_count
         (RSVPRepository.update_status db rsvp_id RSVPStatus.cancelled none)
         rsvp.ticket_id⟩

/-! ## Event service (`backend/services/event_service.py`) -/

/-- The `EventInput` GraphQL input (graphql_api/types.py lines 104-114),
restricted to the fields `create_event` stores in modelled columns.
`max_attendees` is `Optional[int]` with no lower bound. -/
structure EventInput where
  max_attendees : Option Int
  is_free : Bool
  deriving Repr

/-- Python truthiness of `Optional[int]`: `None` and `0` are falsy.  Models
the `event_data.max_attendees or 1000` expression. -/
def optIntOrDefault (v : Option Int) (dflt : Int) : Int :=
  match v with
  | none => dflt
  | some n => if n = 0 then dflt else n

/-- Model of `EventService.create_event` (event_service.py lines 13-44):
insert the event row; when `is_free`, additionally insert one default
"General Admission" ticket with price `0.0` and
`quantity_total = event_data.max_attendees or 1000`. -/
def EventService.create_event (db : DB) (event_data : EventInput)
    (organizer_id : Int) : Event × DB :=
  let created :=
    EventRepository.create db
      { organizer_id := organizer_id
        max_attendees := event_data.max_attendees
        is_free := event_data.is_free }
  if event_data.is_free then
    (created.1,
     (TicketRepository.create created.2
       { event_id := created.1.id
         name := "General Admission"
         price := 0
         quantity_total := optIntOrDefault event_data.max_attendees 1000 }).2)
  else created

/-! ## The validate_qr_code mutation (`backend/graphql_api/mutation.py`) -/

/-- Model of `Mutation.validate_qr_code` (mutation.py lines 111-125): decode
the scanned string, reject when `validate_rsvp_qr_data` fails, reject when the
encoded `event_id` differs from the mutation's `event_id` argument, and then
call `RSVPService.check_in_attendee(decoded_data["user_id"], user.id)` — the
decoded user id is passed in the `rsvp_id` position.  The fall-through branch
is unreachable: validation guarantees integer `user_id` and `event_id`
fields. -/
def Mutation.validate_qr_code (db : DB) (qr_data : String) (event_id : Int)
    (current_user_id : Int) (now : Int) : OpOut :=
  let decoded := QRGenerator.decode_qr_data qr_data
  if QRGenerator.validate_rsvp_qr_data decoded then
    match jget decoded "event_id", jget decoded "user_id" with
    | some (JValue.int e), some (JValue.int u) =>
      if e != event_id then ⟨Except.error SvcError.qrEventMismatch, db⟩
      else RSVPService.check_in_attendee db u current_user_id now
    | _, _ => ⟨Except.error SvcError.invalidQRCode, db⟩
  else ⟨Except.error SvcError.invalidQRCode, db⟩

/-! ## Sequential operation runs (for the inventory-bound invariant)

An Allocation Engine operation with its arguments, and the state reached by
running a list of them one at a time (each call runs to completion before the
next starts). -/

/-- One Allocation Engine call with its arguments, including any injected
storage fault for `createRSVP`. -/
inductive AllocOp where
  | createRSVP (faults : Faults) (rsvp_data : RSVPInput) (user_id : Int) (img : String)
  | cancelRSVP (rsvp_id user_id : Int)
  | checkInAttendee (rsvp_id organizer_id : Int) (now : Int)
  deriving Repr

/-- The database after one Allocation Engine call (the call's return value is
not needed for the state invariant). -/
def applyAllocOp (db : DB) (op : AllocOp) : DB :=
  match op with
  | AllocOp.createRSVP faults rsvp_data user_id img =>
    (RSVPService.create_rsvp faults db rsvp_data user_id img).db
  | AllocOp.cancelRSVP rsvp_id user_id =>
    (RSVPService.cancel_rsvp db rsvp_id user_id).db
  | AllocOp.checkInAttendee rsvp_id organizer_id now =>
    (RSVPService.check_in_attendee db rsvp_id organizer_id now).db

/-- The database after a sequence of Allocation Engine calls, run one at a
time in list order. -/
def runAllocOps (db : DB) (ops : List AllocOp) : DB :=
  ops.foldl applyAllocOp db

/-- The inventory bound `0 <= quantity_sold <= quantity_total` on every ticket
tier of the database. -/
def InventoryBound (db : DB) : Prop :=
  ∀ t ∈ db.tickets, 0 ≤ t.quantity_sold ∧ t.quantity_sold ≤ t.quantity_total

instance : DecidablePred InventoryBound := fun db =>
  inferInstanceAs (Decidable (∀ t ∈ db.tickets, _ ∧ _))

/-- Primary keys of the ticket table are unique (what the database's PRIMARY
KEY constraint guarantees; `UPDATE ... WHERE id = x` then touches exactly the
row `SELECT ... WHERE id = x` read). -/
def TicketIdsUnique (db : DB) : Prop :=
  (db.tickets.map Ticket.id).Nodup

instance : DecidablePred TicketIdsUnique := fun db =>
  inferInstanceAs (Decidable ((db.tickets.map Ticket.id).Nodup))

/-! ## Interleaved reservations on one tier (for the oversell property)

`create_rsvp` reads `quantity_sold` via `TicketRepository.get_by_id`
(rsvp_service.py line 22), tests `quantity_sold >= quantity_total` on that
read value (line 33), and only later runs the unconditional
`UPDATE quantity_sold = quantity_sold + 1` (line 48 calling
ticket_repository.py lines 70-80).  Each repository call is its own awaited
database transaction (`async with db as session` + commit per call), so under
concurrent request handlers the steps of distinct calls interleave.  The model
below is that two-phase structure for `M` handlers racing on one tier, each
handler for a distinct user (so the duplicate check of line 27 passes) with
valid event and ticket; a schedule says which handler runs its next phase. -/

/-- The progress of one in-flight `create_rsvp` handler on the contended tier:
not yet run, passed the sold-out test of line 33, returned successfully, or
raised "This ticket type is sold out!". -/
inductive CallPhase where
  | ready
  | passedCheck
  | succeeded
  | failedSoldOut
  deriving DecidableEq, Repr

/-- The shared tier counters plus each handler's progress. -/
structure ConcState where
  quantity_total : Int
  quantity_sold : Int
  calls : List CallPhase
  deriving DecidableEq, Repr

/-- Run the next phase of handler `i`: a `ready` handler performs the read and
the sold-out test of rsvp_service.py lines 22-34 against the current counter;
a handler past the test performs the ledger insert and the unconditional
increment of lines 46-48 and returns success.  Finished handlers (and an index
out of range) leave the state unchanged. -/
def stepCall (s : ConcState) (i : Nat) : ConcState :=
  match s.calls.get? i with
  | some CallPhase.ready =>
    if s.quantity_sold ≥ s.quantity_total then
      { s with calls := s.calls.set i CallPhase.failedSoldOut }
    else
      { s with calls := s.calls.set i CallPhase.passedCheck }
  | some CallPhase.passedCheck =>
    { s with
      quantity_sold := s.quantity_sold + 1
      calls := s.calls.set i CallPhase.succeeded }
  | _ => s

/-- The state after running a schedule (each entry names the handler that runs
its next phase). -/
def runSched (s : ConcState) (sched : List Nat) : ConcState :=
  sched.foldl stepCall s

/-- How many of the racing `create_rsvp` calls returned success. -/
def successCount (s : ConcState) : Nat :=
  s.calls.countP (fun c => c == CallPhase.succeeded)

/-- How many of the racing `create_rsvp` calls raised SoldOut. -/
def soldOutCount (s : ConcState) : Nat :=
  s.calls.countP (fun c => c == CallPhase.failedSoldOut)

/-- `M` handlers racing for a tier with capacity `N` and nothing sold yet. -/
def initConc (N : Int) (M : Nat) : ConcState :=
  ⟨N, 0, List.replicate M CallPhase.ready⟩

/-! ## Concrete sample states -/

/-- Does effect `a` occur strictly before effect `b` in a trace? -/
def occursBefore (tr : List Eff) (a b : Eff) : Bool :=
  match tr.indexOf? a, tr.indexOf? b with
  | some i, some j => decide (i < j)
  | _, _ => false

/-- A free event (id 1, organizer 10) with its default tier (id 1, capacity 5,
nothing sold) and an empty ledger. -/
def dbFree : DB :=
  ⟨[⟨1, 10, some 5, true⟩], [⟨1, 1, "General Admission", 0, 5, 0⟩], [], 2, 2, 1⟩

/-- The same event and tier with one unit sold and a single *cancelled* RSVP
(id 1) of user 7 for event 1. -/
def dbCancelled : DB :=
  ⟨[⟨1, 10, some 5, true⟩], [⟨1, 1, "General Admission", 0, 5, 1⟩],
   [⟨1, 1, 7, 1, RSVPStatus.cancelled, none, none⟩], 2, 2, 2⟩

/-- The same event and tier with one unit sold and a single *confirmed* RSVP
(id 1) of user 7 for event 1, not yet checked in. -/
def dbConfirmed : DB :=
  ⟨[⟨1, 10, some 5, true⟩], [⟨1, 1, "General Admission", 0, 5, 1⟩],
   [⟨1, 1, 7, 1, RSVPStatus.confirmed, some "qr", none⟩], 2, 2, 2⟩

/-- The characters of the payload's final `"type":"rsvp_checkin"}` chunk. -/
def typeFieldChars : List Char :=
  '"' :: 't' :: 'y' :: 'p' :: 'e' :: '"' :: ':' :: '"' :: 'r' :: 's' :: 'v' ::
    'p' :: '_' :: 'c' :: 'h' :: 'e' :: 'c' :: 'k' :: 'i' :: 'n' :: '"' ::
    closeBraceChar :: []

/-- The payload's characters from the `event_id` key on. -/
def eventFieldChars (e : Nat) : List Char :=
  '"' :: 'e' :: 'v' :: 'e' :: 'n' :: 't' :: '_' :: 'i' :: 'd' :: '"' :: ':' ::
    (natDigits e ++ (',' :: typeFieldChars))

/-- The payload's characters after the opening brace. -/
def userFieldChars (u e : Nat) : List Char :=
  '"' :: 'u' :: 's' :: 'e' :: 'r' :: '_' :: 'i' :: 'd' :: '"' :: ':' ::
    (natDigits u ++ (',' :: eventFieldChars e))

/-- The decoded payload dict, as an association list. -/
def payloadFields (u e : Int) : List (String × JValue) :=
  [("user_id", JValue.int u), ("event_id", JValue.int e),
   ("type", JValue.str "rsvp_checkin")]

/-! # Theorems -/

/-- C1: the no-oversell property fails on the code.  Two `create_rsvp`
handlers race for a tier with `quantity_total = 1`: under the schedule in
which both run the line-33 sold-out test (against `quantity_sold = 0`) before
either runs the unconditional line-48 increment, both calls succeed, none
raises SoldOut, and `quantity_sold` ends at `2 > 1`.  The same two calls run
one at a time give exactly 1 success, 1 SoldOut and `quantity_sold = 1` — the
violation is specific to the interleaving the read-then-write structure
admits. -/
theorem c1_oversell_race :
    successCount (runSched (initConc 1 2) [0, 1, 0, 1]) = 2 ∧
    soldOutCount (runSched (initConc 1 2) [0, 1, 0, 1]) = 0 ∧
    (runSched (initConc 1 2) [0, 1, 0, 1]).quantity_sold = 2 ∧
    (runSched (initConc 1 2) [0, 1, 0, 1]).quantity_total = 1 ∧
    successCount (runSched (initConc 1 2) [0, 0, 1, 1]) = 1 ∧
    soldOutCount (runSched (initConc 1 2) [0, 0, 1, 1]) = 1 ∧
    (runSched (initConc 1 2) [0, 0, 1, 1]).quantity_sold = 1 := by
  decide

/-- C3 counterexample: on a successful `create_rsvp` run the recorded side
effects are, in order, ledger insert, inventory increment, notification — so
the claimed "inventory increment happens-before ledger insert" is false at
this input (the increment does not occur before the insert). -/
theorem c3_claimed_order_refuted :
    (RSVPService.create_rsvp noFaults dbFree ⟨1, 1⟩ 7 "AAA").res =
      Except.ok ⟨1, 1, 7, 1, RSVPStatus.confirmed,
        some "data:image/png;base64,AAA", none⟩ ∧
    (RSVPService.create_rsvp noFaults dbFree ⟨1, 1⟩ 7 "AAA").trace =
      [Eff.ledgerInsert, Eff.inventoryIncrement, Eff.notifyDispatch] ∧
    occursBefore (RSVPService.create_rsvp noFaults dbFree ⟨1, 1⟩ 7 "AAA").trace
      Eff.inventoryIncrement Eff.ledgerInsert = false := by
  decide

/-- C4: the all-or-nothing / compensation contract fails on the code.  When
the inventory increment (the repository call at rsvp_service.py line 48)
fails after the ledger insert of line 46 succeeded, the error propagates
while the new confirmed RSVP row stays in the ledger and the tier's
`quantity_sold` is unchanged: a partial write is observable and no
compensating action runs (the service has no try/except at all). -/
theorem c4_partial_write_observable :
    (RSVPService.create_rsvp ⟨false, true⟩ dbFree ⟨1, 1⟩ 7 "AAA").res =
      Except.error SvcError.storageFailure ∧
    (RSVPService.create_rsvp ⟨false, true⟩ dbFree ⟨1, 1⟩ 7 "AAA").db.rsvps =
      [⟨1, 1, 7, 1, RSVPStatus.confirmed, some "data:image/png;base64,AAA", none⟩] ∧
    dbFree.rsvps = [] ∧
    (RSVPService.create_rsvp ⟨false, true⟩ dbFree ⟨1, 1⟩ 7 "AAA").db.tickets =
      dbFree.tickets := by
  decide

/-- C5 counterexample: in a state where every RSVP of user 7 for event 1 is
cancelled, `create_rsvp` still fails with DuplicateRSVP — the duplicate check
(rsvp_service.py line 27, `get_by_user_and_event`) does not restrict to
active rows. -/
theorem c5_cancelled_still_duplicate :
    (∀ r ∈ dbCancelled.rsvps,
      r.user_id = 7 → r.event_id = 1 → r.status = RSVPStatus.cancelled) ∧
    (RSVPService.create_rsvp noFaults dbCancelled ⟨1, 1⟩ 7 "AAA").res =
      Except.error SvcError.duplicateRSVP := by
  decide

/-- C6: cancelled is not terminal in the code.  On an RSVP whose status is
`cancelled`: `check_in_attendee` (which only rejects status `attended`)
succeeds, moves the row to `attended` and stamps `checked_in_at`; and
`cancel_rsvp` succeeds again and decrements the tier's `quantity_sold` a
second time (1 to 0 here) — neither raises InvalidTransition and both mutate
state. -/
theorem c6_cancelled_not_terminal :
    (RSVPRepository.get_by_id dbCancelled 1).map RSVP.status =
      some RSVPStatus.cancelled ∧
    (RSVPService.check_in_attendee dbCancelled 1 10 99).res =
      Except.ok "Attendee checked in successfully!" ∧
    (RSVPRepository.get_by_id (RSVPService.check_in_attendee dbCancelled 1 10 99).db 1).map
      RSVP.status = some RSVPStatus.attended ∧
    (RSVPRepository.get_by_id (RSVPService.check_in_attendee dbCancelled 1 10 99).db 1).map
      RSVP.checked_in_at = some (some 99) ∧
    (RSVPService.cancel_rsvp dbCancelled 1 7).res =
      Except.ok "RSVP cancelled successfully!" ∧
    (TicketRepository.get_by_id dbCancelled 1).map Ticket.quantity_sold = some 1 ∧
    (TicketRepository.get_by_id (RSVPService.cancel_rsvp dbCancelled 1 7).db 1).map
      Ticket.quantity_sold = some 0 := by
  decide

/-- C9 counterexample: creating a free event whose `max_attendees` is set to
`0` provisions the default tier with `quantity_total = 1000`, not with the
event's `max_attendees` — `event_data.max_attendees or 1000` treats the set
value `0` like `None` (Python falsiness). -/
theorem c9_zero_max_attendees_default :
    (EventService.create_event ⟨[], [], [], 1, 1, 1⟩ ⟨some 0, true⟩ 10).1.max_attendees =
      some 0 ∧
    ((EventService.create_event ⟨[], [], [], 1, 1, 1⟩ ⟨some 0, true⟩ 10).2.tickets.map
      Ticket.quantity_total) = [1000] ∧
    (1000 : Int) ≠ 0 := by
  decide

/-- C9 as amended: creating an event provisions, exactly when the event is
free, exactly one additional ticket tier, belonging to the created event
(whose id is the database-assigned `nextEventId`), with price 0 and
`quantity_total` equal to `max_attendees` when that is set and nonzero, and
the large default 1000 when `max_attendees` is unset or 0; for a non-free
event the ticket table is unchanged. -/
theorem c9_free_event_default_tier (db : DB) (event_data : EventInput)
    (organizer_id : Int) :
    (EventService.create_event db event_data organizer_id).1.id = db.nextEventId ∧
    (event_data.is_free = true →
      (EventService.create_event db event_data organizer_id).2.tickets =
        db.tickets ++
          [⟨db.nextTicketId, db.nextEventId, "General Admission", 0,
            optIntOrDefault event_data.max_attendees 1000, 0⟩]) ∧
    (event_data.is_free = false →
      (EventService.create_event db event_data organizer_id).2.tickets =
        db.tickets) := by
  refine ⟨?_, ?_, ?_⟩ <;>
    rcases h : event_data.is_free <;>
      simp [EventService.create_event, EventRepository.create,
        TicketRepository.create, h]

/-! ## Helper lemmas -/

/-- Updating RSVP rows leaves the ticket table unchanged. -/
theorem tickets_update_status (db : DB) (rid : Int) (st : RSVPStatus)
    (ts : Option Int) :
    (RSVPRepository.update_status db rid st ts).tickets = db.tickets := rfl

/-- Inserting an RSVP row leaves the ticket table unchanged. -/
theorem tickets_rsvp_create (db : DB) (d : RSVPCreateData) :
    ((RSVPRepository.create db d).2).tickets = db.tickets := rfl

/-- The increment touches no primary key. -/
theorem map_id_increment (db : DB) (tid : Int) :
    ((TicketRepository.increment_sold_count db tid).tickets).map Ticket.id =
      db.tickets.map Ticket.id := by
  unfold TicketRepository.increment_sold_count
  rw [List.map_map]
  refine List.map_congr_left (fun t _ => ?_)
  by_cases hid : (t.id == tid) = true <;> simp [Function.comp, hid]

/-- The decrement touches no primary key. -/
theorem map_id_decrement (db : DB) (tid : Int) :
    ((TicketRepository.decrement_sold_count db tid).tickets).map Ticket.id =
      db.tickets.map Ticket.id := by
  unfold TicketRepository.decrement_sold_count
  rw [List.map_map]
  refine List.map_congr_left (fun t _ => ?_)
  by_cases hid : (t.id == tid) = true <;> simp [Function.comp, hid]

/-- The floored decrement keeps every tier inside `[0, quantity_total]`. -/
theorem invBound_decrement (db : DB) (tid : Int) (h : InventoryBound db) :
    InventoryBound (TicketRepository.decrement_sold_count db tid) := by
  intro t ht
  rcases List.mem_map.mp ht with ⟨s, hsmem, rfl⟩
  have hb := h s hsmem
  by_cases hid : (s.id == tid) = true
  · rw [if_pos hid]
    show 0 ≤ max (s.quantity_sold - 1) 0 ∧
      max (s.quantity_sold - 1) 0 ≤ s.quantity_total
    omega
  · rw [if_neg hid]
    exact hb

/-- The unconditional increment keeps every tier inside `[0, quantity_total]`
provided the (unique) tier it hits satisfied `quantity_sold < quantity_total`
when it was read. -/
theorem invBound_increment_of_lt (db : DB) (tid : Int) (h : InventoryBound db)
    (hu : TicketIdsUnique db) (ticket : Ticket)
    (hfind : TicketRepository.get_by_id db tid = some ticket)
    (hlt : ticket.quantity_sold < ticket.quantity_total) :
    InventoryBound (TicketRepository.increment_sold_count db tid) := by
  have hfind2 : db.tickets.find? (fun t => t.id == tid) = some ticket := hfind
  intro t ht
  rcases List.mem_map.mp ht with ⟨s, hsmem, rfl⟩
  have hb := h s hsmem
  by_cases hid : (s.id == tid) = true
  · rw [if_pos hid]
    have htmem : ticket ∈ db.tickets := List.mem_of_find?_eq_some hfind2
    have htid : ticket.id = tid := by
      have := List.find?_some hfind2
      simpa using this
    have hst : s = ticket :=
      List.inj_on_of_nodup_map hu hsmem htmem
        (by rw [beq_iff_eq] at hid; rw [hid, htid])
    subst hst
    show 0 ≤ s.quantity_sold + 1 ∧ s.quantity_sold + 1 ≤ s.quantity_total
    omega
  · rw [if_neg hid]
    exact hb

/-- `InventoryBound` is preserved by every single Allocation Engine call, run
to completion, with or without an injected storage fault. -/
theorem invBound_applyAllocOp (db : DB) (op : AllocOp) (h : InventoryBound db)
    (hu : TicketIdsUnique db) : InventoryBound (applyAllocOp db op) := by
  cases op with
  | createRSVP faults rd uid img =>
    show InventoryBound (RSVPService.create_rsvp faults db rd uid img).db
    unfold RSVPService.create_rsvp
    split
    · exact h
    next ev hev =>
    split
    · exact h
    next tk htk =>
    split
    · exact h
    next hmm =>
    split
    · exact h
    next hdup =>
    split
    · exact h
    next hsold =>
    split
    · exact h
    next qr hqr =>
    by_cases hfl : faults.failLedgerInsert = true
    · rw [if_pos hfl]
      exact h
    · rw [if_neg hfl]
      by_cases hfi : faults.failIncrement = true
      · simp only [hfi, if_true]
        exact fun t ht => h t ht
      · simp [hfi]
        exact invBound_increment_of_lt _ _ (fun t ht => h t ht) hu tk htk
          (by omega)
  | cancelRSVP rid uid =>
    show InventoryBound (RSVPService.cancel_rsvp db rid uid).db
    unfold RSVPService.cancel_rsvp
    split
    · exact h
    next rsvp hr =>
    split
    · exact h
    split
    · exact h
    exact invBound_decrement _ _ (fun t ht => h t ht)
  | checkInAttendee rid oid now =>
    show InventoryBound (RSVPService.check_in_attendee db rid oid now).db
    unfold RSVPService.check_in_attendee
    split
    · exact h
    next rsvp hr =>
    split
    · exact h
    next ev hev =>
    split
    · exact h
    split
    · exact h
    exact fun t ht => h t ht

/-- No Allocation Engine call changes the list of ticket primary keys. -/
theorem map_id_applyAllocOp (db : DB) (op : AllocOp) :
    ((applyAllocOp db op).tickets).map Ticket.id = db.tickets.map Ticket.id := by
  cases op with
  | createRSVP faults rd uid img =>
    show ((RSVPService.create_rsvp faults db rd uid img).db.tickets).map Ticket.id = _
    unfold RSVPService.create_rsvp
    repeat' split
    all_goals first
      | rfl
      | exact map_id_increment _ _
  | cancelRSVP rid uid =>
    show ((RSVPService.cancel_rsvp db rid uid).db.tickets).map Ticket.id = _
    unfold RSVPService.cancel_rsvp
    repeat' split
    all_goals first
      | rfl
      | exact map_id_decrement _ _
  | checkInAttendee rid oid now =>
    show ((RSVPService.check_in_attendee db rid oid now).db.tickets).map Ticket.id = _
    unfold RSVPService.check_in_attendee
    repeat' split
    all_goals rfl

/-- Uniqueness of ticket primary keys is preserved by every call. -/
theorem ticketIdsUnique_applyAllocOp (db : DB) (op : AllocOp)
    (hu : TicketIdsUnique db) : TicketIdsUnique (applyAllocOp db op) := by
  unfold TicketIdsUnique
  rw [map_id_applyAllocOp]
  exact hu

/-! ## The claims -/

/-- C2: the inventory-bound invariant `0 <= quantity_sold <= quantity_total`
holds for every ticket tier after every prefix of any sequence of Allocation
Engine operations run one at a time (with any per-call storage faults),
starting from a state satisfying it whose ticket primary keys are unique: the
decrement is floored at 0 and the increment is only reached under the
sold-out guard of rsvp_service.py line 33. -/
theorem c2_inventory_bound (db : DB) (ops : List AllocOp)
    (h : InventoryBound db) (hu : TicketIdsUnique db) :
    InventoryBound (runAllocOps db ops) := by
  induction ops generalizing db with
  | nil => exact h
  | cons op ops ih =>
    exact ih (applyAllocOp db op) (invBound_applyAllocOp db op h hu)
      (ticketIdsUnique_applyAllocOp db op hu)

/-- C2 witness: a concrete run — reserve, double-cancel, re-reserve, check in —
ends (as every run does) with every tier inside its bounds. -/
theorem c2_inventory_bound_witness :
    InventoryBound (runAllocOps dbFree
      [AllocOp.createRSVP noFaults ⟨1, 1⟩ 7 "AAA",
       AllocOp.cancelRSVP 1 7,
       AllocOp.cancelRSVP 1 7,
       AllocOp.createRSVP ⟨false, true⟩ ⟨1, 1⟩ 8 "BBB",
       AllocOp.checkInAttendee 1 10 99]) :=
  c2_inventory_bound dbFree
    [AllocOp.createRSVP noFaults ⟨1, 1⟩ 7 "AAA",
     AllocOp.cancelRSVP 1 7,
     AllocOp.cancelRSVP 1 7,
     AllocOp.createRSVP ⟨false, true⟩ ⟨1, 1⟩ 8 "BBB",
     AllocOp.checkInAttendee 1 10 99]
    (by decide) (by decide)

/-- C3 as amended: on every successful `create_rsvp` run the side effects
occur in the order ledger insert, then inventory increment, then notification
dispatch (rsvp_service.py lines 46, 48, 50) — the insert happens-before the
increment, which happens-before the notification. -/
theorem c3_effect_order (faults : Faults) (db : DB) (rsvp_data : RSVPInput)
    (user_id : Int) (img : String)
    (h : (RSVPService.create_rsvp faults db rsvp_data user_id img).res.isOk = true) :
    (RSVPService.create_rsvp faults db rsvp_data user_id img).trace =
      [Eff.ledgerInsert, Eff.inventoryIncrement, Eff.notifyDispatch] ∧
    occursBefore (RSVPService.create_rsvp faults db rsvp_data user_id img).trace
      Eff.ledgerInsert Eff.inventoryIncrement = true ∧
    occursBefore (RSVPService.create_rsvp faults db rsvp_data user_id img).trace
      Eff.inventoryIncrement Eff.notifyDispatch = true := by
  revert h
  unfold RSVPService.create_rsvp
  repeat' split
  all_goals intro h
  all_goals first
    | (exfalso; revert h; simp [Except.isOk, Except.toBool]; done)
    | exact ⟨rfl,
        by
          show occursBefore [Eff.ledgerInsert, Eff.inventoryIncrement,
            Eff.notifyDispatch] Eff.ledgerInsert Eff.inventoryIncrement = true
          decide,
        by
          show occursBefore [Eff.ledgerInsert, Eff.inventoryIncrement,
            Eff.notifyDispatch] Eff.inventoryIncrement Eff.notifyDispatch = true
          decide⟩

/-- C3 witness: the amended ordering at a concrete successful run. -/
theorem c3_effect_order_witness :
    (RSVPService.create_rsvp noFaults dbFree ⟨1, 1⟩ 7 "AAA").trace =
      [Eff.ledgerInsert, Eff.inventoryIncrement, Eff.notifyDispatch] ∧
    occursBefore (RSVPService.create_rsvp noFaults dbFree ⟨1, 1⟩ 7 "AAA").trace
      Eff.ledgerInsert Eff.inventoryIncrement = true ∧
    occursBefore (RSVPService.create_rsvp noFaults dbFree ⟨1, 1⟩ 7 "AAA").trace
      Eff.inventoryIncrement Eff.notifyDispatch = true :=
  c3_effect_order noFaults dbFree ⟨1, 1⟩ 7 "AAA" (by decide)

/-- C5 as amended: `create_rsvp` fails with DuplicateRSVP exactly when the
event lookup succeeds, the ticket lookup succeeds with a ticket of that
event, and the user has an existing RSVP row for the event of *any* status —
cancelled included; a user all of whose RSVPs for the event are cancelled is
still rejected as DuplicateRSVP. -/
theorem c5_duplicate_iff_existing_row (faults : Faults) (db : DB)
    (rsvp_data : RSVPInput) (user_id : Int) (img : String) :
    (RSVPService.create_rsvp faults db rsvp_data user_id img).res =
      Except.error SvcError.duplicateRSVP ↔
    ((EventRepository.get_by_id db rsvp_data.event_id).isSome ∧
     (∃ t, TicketRepository.get_by_id db rsvp_data.ticket_id = some t ∧
        t.event_id = rsvp_data.event_id) ∧
     (RSVPRepository.get_by_user_and_event db user_id rsvp_data.event_id).isSome) := by
  unfold RSVPService.create_rsvp
  repeat' split
  all_goals simp_all

/-- Looking an RSVP up after `update_status` finds the (possibly updated)
image of the row the same lookup found before: the update rewrites rows in
place and never changes a primary key. -/
theorem rsvp_get_by_id_after_update (db : DB) (rid : Int) (st : RSVPStatus)
    (ts : Option Int) (rid2 : Int) :
    RSVPRepository.get_by_id (RSVPRepository.update_status db rid st ts) rid2 =
      (RSVPRepository.get_by_id db rid2).map
        (fun r =>
          if r.id == rid then
            { r with
              status := st
              checked_in_at :=
                match ts with
                | some x => some x
                | none => r.checked_in_at }
          else r) := by
  unfold RSVPRepository.get_by_id RSVPRepository.update_status
  rw [List.find?_map]
  congr 1
  congr 1
  funext r
  by_cases hrr : (r.id == rid) = true
  · simp only [Function.comp]
    rw [if_pos hrr]
  · simp only [Function.comp]
    rw [if_neg hrr]

/-- An already-`attended` RSVP of the caller's event is rejected with
AlreadyCheckedIn and the state is untouched. -/
theorem check_in_already_attended (db2 : DB) (rid oid tnow : Int) (r2 : RSVP)
    (ev : Event)
    (h1 : RSVPRepository.get_by_id db2 rid = some r2)
    (h2 : EventRepository.get_by_id db2 r2.event_id = some ev)
    (h3 : ev.organizer_id = oid) (h4 : r2.status = RSVPStatus.attended) :
    RSVPService.check_in_attendee db2 rid oid tnow =
      ⟨Except.error SvcError.alreadyCheckedIn, db2⟩ := by
  have hbeq : (RSVPStatus.attended == RSVPStatus.attended) = true := by decide
  unfold RSVPService.check_in_attendee
  rw [h1]
  simp [h2, h3, h4, hbeq]

/-- A caller who is not the owning organizer is rejected with Unauthorized
and the state is untouched. -/
theorem check_in_unauthorized (db2 : DB) (rid oid tnow : Int) (r2 : RSVP)
    (ev : Event)
    (h1 : RSVPRepository.get_by_id db2 rid = some r2)
    (h2 : EventRepository.get_by_id db2 r2.event_id = some ev)
    (h3 : ev.organizer_id ≠ oid) :
    RSVPService.check_in_attendee db2 rid oid tnow =
      ⟨Except.error SvcError.unauthorizedCheckIn, db2⟩ := by
  unfold RSVPService.check_in_attendee
  rw [h1]
  simp [h2, h3]

/-- A `confirmed` RSVP of the caller's event is checked in: success message
and the `update_status` write with the clock value. -/
theorem check_in_confirmed (db2 : DB) (rid oid tnow : Int) (r2 : RSVP)
    (ev : Event)
    (h1 : RSVPRepository.get_by_id db2 rid = some r2)
    (h2 : EventRepository.get_by_id db2 r2.event_id = some ev)
    (h3 : ev.organizer_id = oid) (h4 : r2.status = RSVPStatus.confirmed) :
    RSVPService.check_in_attendee db2 rid oid tnow =
      ⟨Except.ok "Attendee checked in successfully!",
       RSVPRepository.update_status db2 rid RSVPStatus.attended (some tnow)⟩ := by
  have hbeq : (RSVPStatus.confirmed == RSVPStatus.attended) = false := by decide
  unfold RSVPService.check_in_attendee
  rw [h1]
  simp [h2, h3, h4, hbeq]

/-- C7: behaviour of `check_in_attendee` at a state where the RSVP and its
event load.  Re-checking an `attended` RSVP fails AlreadyCheckedIn with the
state (hence `checked_in_at`) untouched; a caller who is not the event's
organizer gets Unauthorized with the state untouched; on a `confirmed` RSVP
of the caller's event the call succeeds, the row moves to `attended` with
`checked_in_at` stamped to the current time `now`, and an immediately
repeated check-in (at any later time `now2`) fails AlreadyCheckedIn and
changes nothing — the stamp is written exactly once. -/
theorem c7_check_in_spec (db : DB) (rsvp_id organizer_id now now2 : Int)
    (rsvp : RSVP) (event : Event)
    (hr : RSVPRepository.get_by_id db rsvp_id = some rsvp)
    (he : EventRepository.get_by_id db rsvp.event_id = some event) :
    (rsvp.status = RSVPStatus.attended → event.organizer_id = organizer_id →
      RSVPService.check_in_attendee db rsvp_id organizer_id now =
        ⟨Except.error SvcError.alreadyCheckedIn, db⟩) ∧
    (event.organizer_id ≠ organizer_id →
      RSVPService.check_in_attendee db rsvp_id organizer_id now =
        ⟨Except.error SvcError.unauthorizedCheckIn, db⟩) ∧
    (rsvp.status = RSVPStatus.confirmed → event.organizer_id = organizer_id →
      (RSVPService.check_in_attendee db rsvp_id organizer_id now).res =
        Except.ok "Attendee checked in successfully!" ∧
      RSVPRepository.get_by_id
          (RSVPService.check_in_attendee db rsvp_id organizer_id now).db rsvp_id =
        some { rsvp with status := RSVPStatus.attended, checked_in_at := some now } ∧
      RSVPService.check_in_attendee
          (RSVPService.check_in_attendee db rsvp_id organizer_id now).db
          rsvp_id organizer_id now2 =
        ⟨Except.error SvcError.alreadyCheckedIn,
         (RSVPService.check_in_attendee db rsvp_id organizer_id now).db⟩) := by
  have hr2 : db.rsvps.find? (fun r => r.id == rsvp_id) = some rsvp := hr
  have hid : rsvp.id = rsvp_id := by
    have := List.find?_some hr2
    simpa using this
  refine ⟨?_, ?_, ?_⟩
  · intro hst horg
    exact check_in_already_attended db rsvp_id organizer_id now rsvp event hr he
      horg hst
  · intro hne
    exact check_in_unauthorized db rsvp_id organizer_id now rsvp event hr he hne
  · intro hst horg
    have hrun : RSVPService.check_in_attendee db rsvp_id organizer_id now =
        ⟨Except.ok "Attendee checked in successfully!",
         RSVPRepository.update_status db rsvp_id RSVPStatus.attended (some now)⟩ :=
      check_in_confirmed db rsvp_id organizer_id now rsvp event hr he horg hst
    have hfound : RSVPRepository.get_by_id
        (RSVPService.check_in_attendee db rsvp_id organizer_id now).db rsvp_id =
        some { rsvp with status := RSVPStatus.attended, checked_in_at := some now } := by
      rw [hrun]
      show RSVPRepository.get_by_id
        (RSVPRepository.update_status db rsvp_id RSVPStatus.attended (some now))
        rsvp_id = _
      rw [rsvp_get_by_id_after_update, hr]
      have hidb : (rsvp.id == rsvp_id) = true := by simp [hid]
      simp [hidb, hid]
    have he2 : EventRepository.get_by_id
        (RSVPService.check_in_attendee db rsvp_id organizer_id now).db
        rsvp.event_id = some event := by
      rw [hrun]
      exact he
    exact ⟨by rw [hrun], hfound,
      check_in_already_attended _ rsvp_id organizer_id now2
        ({ rsvp with status := RSVPStatus.attended, checked_in_at := some now })
        event hfound he2 horg rfl⟩

/-- C7 witness: the behaviour at a concrete confirmed RSVP — success with the
stamp, then AlreadyCheckedIn with nothing changed. -/
theorem c7_check_in_spec_witness :
    (RSVPService.check_in_attendee dbConfirmed 1 10 50).res =
      Except.ok "Attendee checked in successfully!" ∧
    RSVPRepository.get_by_id (RSVPService.check_in_attendee dbConfirmed 1 10 50).db 1 =
      some ⟨1, 1, 7, 1, RSVPStatus.attended, some "qr", some 50⟩ ∧
    RSVPService.check_in_attendee
        (RSVPService.check_in_attendee dbConfirmed 1 10 50).db 1 10 60 =
      ⟨Except.error SvcError.alreadyCheckedIn,
       (RSVPService.check_in_attendee dbConfirmed 1 10 50).db⟩ :=
  (c7_check_in_spec dbConfirmed 1 10 50 60
    ⟨1, 1, 7, 1, RSVPStatus.confirmed, some "qr", none⟩
    ⟨1, 10, some 5, true⟩ (by decide) (by decide)).2.2 rfl rfl

/-! ## Decimal serialisation and parsing lemmas (for the credential payload) -/

/-- The accumulator of `natDigitsCore` is a suffix appended to the digits. -/
theorem natDigitsCore_append (n : Nat) :
    ∀ acc : List Char, natDigitsCore n acc = natDigitsCore n [] ++ acc := by
  induction n using Nat.strong_induction_on with
  | _ n ih =>
    intro acc
    by_cases h : n < 10
    · rw [natDigitsCore]
      conv_rhs => rw [natDigitsCore]
      simp [h]
    · rw [natDigitsCore]
      conv_rhs => rw [natDigitsCore]
      simp only [h, dite_false]
      have hlt : n / 10 < n := Nat.div_lt_self (by omega) (by omega)
      rw [ih (n / 10) hlt (digitChar (n % 10) :: acc),
        ih (n / 10) hlt (digitChar (n % 10) :: [])]
      simp

/-- One-step characterisation of the decimal representation. -/
theorem natDigits_def (n : Nat) :
    natDigits n =
      if n < 10 then [digitChar n]
      else natDigits (n / 10) ++ [digitChar (n % 10)] := by
  unfold natDigits
  rw [natDigitsCore]
  by_cases h : n < 10
  · simp [h]
  · simp only [h, dite_false, if_false]
    exact natDigitsCore_append (n / 10) [digitChar (n % 10)]

/-- Digit characters pass the digit test. -/
theorem isDigitChar_digitChar (d : Nat) (h : d < 10) :
    isDigitChar (digitChar d) = true := by
  interval_cases d <;> decide

/-- `digitVal` inverts `digitChar` below 10. -/
theorem digitVal_digitChar (d : Nat) (h : d < 10) :
    digitVal (digitChar d) = d := by
  interval_cases d <;> decide

/-- Every character of a decimal representation is a digit. -/
theorem natDigits_all_digits (n : Nat) :
    ∀ c ∈ natDigits n, isDigitChar c = true := by
  induction n using Nat.strong_induction_on with
  | _ n ih =>
    rw [natDigits_def]
    by_cases h : n < 10
    · simp only [if_pos h, List.mem_singleton]
      rintro c rfl
      exact isDigitChar_digitChar n h
    · simp only [if_neg h, List.mem_append, List.mem_singleton]
      rintro c (hc | rfl)
      · exact ih (n / 10) (Nat.div_lt_self (by omega) (by omega)) c hc
      · exact isDigitChar_digitChar _ (Nat.mod_lt _ (by omega))

/-- A decimal representation is never empty. -/
theorem natDigits_ne_nil (n : Nat) : natDigits n ≠ [] := by
  rw [natDigits_def]
  by_cases h : n < 10 <;> simp [h]

/-- Running the digit loop over a decimal representation folds the value into
the accumulator and leaves the rest untouched. -/
theorem parseNatLoop_digits (n : Nat) :
    ∀ (acc : Nat) (rest : List Char),
      parseNatLoop (natDigits n ++ rest) acc =
        parseNatLoop rest (acc * 10 ^ (natDigits n).length + n) := by
  induction n using Nat.strong_induction_on with
  | _ n ih =>
    intro acc rest
    by_cases h : n < 10
    · rw [natDigits_def, if_pos h]
      simp only [List.singleton_append, List.length_singleton]
      rw [parseNatLoop]
      simp [isDigitChar_digitChar n h, digitVal_digitChar n h]
    · have hlt : n / 10 < n := Nat.div_lt_self (by omega) (by omega)
      have hm : n % 10 < 10 := Nat.mod_lt _ (by omega)
      rw [natDigits_def, if_neg h, List.append_assoc, ih (n / 10) hlt,
        List.singleton_append, parseNatLoop]
      simp only [isDigitChar_digitChar _ hm, digitVal_digitChar _ hm, if_true]
      congr 1
      rw [List.length_append, List.length_singleton, pow_succ, ← mul_assoc]
      have hdm := Nat.div_add_mod n 10
      generalize acc * 10 ^ (natDigits (n / 10)).length = m
      omega

/-- The digit loop stops at a non-digit (or the end of input). -/
theorem parseNatLoop_stop (rest : List Char) (m : Nat)
    (h : ∀ c, rest.head? = some c → isDigitChar c = false) :
    parseNatLoop rest m = (m, rest) := by
  cases rest with
  | nil => rfl
  | cons c cs =>
    have := h c rfl
    simp [parseNatLoop, this]

/-- Parsing an integer token over a decimal representation followed by a
non-digit yields the value and the rest. -/
theorem parseNatTok_digits (n : Nat) (rest : List Char)
    (h : ∀ c, rest.head? = some c → isDigitChar c = false) :
    parseNatTok (natDigits n ++ rest) = some (n, rest) := by
  obtain ⟨c, tail, hct⟩ : ∃ c tail, natDigits n = c :: tail := by
    cases hnd : natDigits n with
    | nil => exact absurd hnd (natDigits_ne_nil n)
    | cons c tail => exact ⟨c, tail, rfl⟩
  have hdig : isDigitChar c = true :=
    natDigits_all_digits n c (by rw [hct]; exact List.mem_cons_self _ _)
  have hstep : parseNatTok (natDigits n ++ rest) =
      some (parseNatLoop (natDigits n ++ rest) 0) := by
    rw [hct, List.cons_append]
    show (if isDigitChar c = true then
        some (parseNatLoop (c :: (tail ++ rest)) 0)
      else none) = some (parseNatLoop (c :: (tail ++ rest)) 0)
    rw [if_pos hdig]
  rw [hstep, parseNatLoop_digits, parseNatLoop_stop rest _ h]
  simp

/-- Parsing a JSON value over a decimal representation followed by a non-digit
yields the integer value. -/
theorem parseValueTok_digits (n : Nat) (rest : List Char)
    (h : ∀ c, rest.head? = some c → isDigitChar c = false) :
    parseValueTok (natDigits n ++ rest) = some (JValue.int (n : Int), rest) := by
  obtain ⟨c, tail, hct⟩ : ∃ c tail, natDigits n = c :: tail := by
    cases hnd : natDigits n with
    | nil => exact absurd hnd (natDigits_ne_nil n)
    | cons c tail => exact ⟨c, tail, rfl⟩
  have hdig : isDigitChar c = true :=
    natDigits_all_digits n c (by rw [hct]; exact List.mem_cons_self _ _)
  have hq : (c == '"') = false := by
    by_cases hq2 : (c == '"') = true
    · exfalso
      have : c = '"' := by simpa using hq2
      rw [this] at hdig
      exact absurd hdig (by decide)
    · simpa using hq2
  have hstep : parseValueTok (natDigits n ++ rest) =
      (parseNatTok (natDigits n ++ rest)).map
        (fun p => (JValue.int (p.1 : Int), p.2)) := by
    rw [hct, List.cons_append]
    show (if (c == '"') = true then
        Option.map (fun p => (JValue.str p.1, p.2)) (parseStrLoop (tail ++ rest) [])
      else if isDigitChar c = true then
        Option.map (fun p => (JValue.int (p.1 : Int), p.2))
          (parseNatTok (c :: (tail ++ rest)))
      else none) =
      Option.map (fun p => (JValue.int (p.1 : Int), p.2))
        (parseNatTok (c :: (tail ++ rest)))
    rw [if_neg (by simp [hq]), if_pos hdig]
  rw [hstep, parseNatTok_digits n rest h]
  rfl

/-- One loop step over the `"user_id":<value>,` field: the concrete key is
consumed, the value parse is supplied, and the comma continues the loop. -/
theorem fieldsStep_user (F : Nat) (acc : List (String × JValue)) (v : JValue)
    (rest2 tail : List Char)
    (hval : parseValueTok tail = some (v, ',' :: rest2)) :
    parseFieldsLoop (F + 1)
      ('"' :: 'u' :: 's' :: 'e' :: 'r' :: '_' :: 'i' :: 'd' :: '"' :: ':' :: tail)
      acc =
    parseFieldsLoop F rest2 (acc ++ [("user_id", v)]) := by
  have h0 : parseFieldsLoop (F + 1)
      ('"' :: 'u' :: 's' :: 'e' :: 'r' :: '_' :: 'i' :: 'd' :: '"' :: ':' :: tail)
      acc =
      (match parseValueTok tail with
       | none => none
       | some (v, afterV) =>
         match afterV with
         | [] => none
         | c :: more =>
           if c == ',' then parseFieldsLoop F more (acc ++ [("user_id", v)])
           else if c == closeBraceChar then some (acc ++ [("user_id", v)], more)
           else none) := rfl
  rw [h0, hval]
  rfl

/-- One loop step over the `"event_id":<value>,` field. -/
theorem fieldsStep_event (F : Nat) (acc : List (String × JValue)) (v : JValue)
    (rest2 tail : List Char)
    (hval : parseValueTok tail = some (v, ',' :: rest2)) :
    parseFieldsLoop (F + 1)
      ('"' :: 'e' :: 'v' :: 'e' :: 'n' :: 't' :: '_' :: 'i' :: 'd' :: '"' :: ':' :: tail)
      acc =
    parseFieldsLoop F rest2 (acc ++ [("event_id", v)]) := by
  have h0 : parseFieldsLoop (F + 1)
      ('"' :: 'e' :: 'v' :: 'e' :: 'n' :: 't' :: '_' :: 'i' :: 'd' :: '"' :: ':' :: tail)
      acc =
      (match parseValueTok tail with
       | none => none
       | some (v, afterV) =>
         match afterV with
         | [] => none
         | c :: more =>
           if c == ',' then parseFieldsLoop F more (acc ++ [("event_id", v)])
           else if c == closeBraceChar then some (acc ++ [("event_id", v)], more)
           else none) := rfl
  rw [h0, hval]
  rfl

/-- The final `"type":"rsvp_checkin"` field followed by the closing brace:
fully concrete, the loop returns the accumulated fields with nothing left. -/
theorem fieldsStep_type (F : Nat) (acc : List (String × JValue)) :
    parseFieldsLoop (F + 1) typeFieldChars acc =
      some (acc ++ [("type", JValue.str "rsvp_checkin")], []) := rfl

/-- The character list of the payload string, in parse-ready form. -/
theorem qrPayload_data (u e : Nat) :
    (qrPayloadString u e).data = openBraceChar :: userFieldChars u e := by
  have h1 : ("\x7b\"user_id\":").data =
      [openBraceChar, '"', 'u', 's', 'e', 'r', '_', 'i', 'd', '"', ':'] := by
    decide
  have h2 : (",\"event_id\":").data =
      [',', '"', 'e', 'v', 'e', 'n', 't', '_', 'i', 'd', '"', ':'] := by
    decide
  have h3 : (",\"type\":\"rsvp_checkin\"\x7d").data =
      [',', '"', 't', 'y', 'p', 'e', '"', ':', '"', 'r', 's', 'v', 'p', '_',
       'c', 'h', 'e', 'c', 'k', 'i', 'n', '"', closeBraceChar] := by
    decide
  show ("\x7b\"user_id\":").data ++ natDigits u ++ (",\"event_id\":").data ++
      natDigits e ++ (",\"type\":\"rsvp_checkin\"\x7d").data = _
  rw [h1, h2, h3]
  simp [userFieldChars, eventFieldChars, typeFieldChars]

/-- The fragment parser recovers the payload dict from the payload string:
`json.loads` of the string embedded in the QR image yields
`{"user_id": u, "event_id": e, "type": "rsvp_checkin"}`. -/
theorem jsonParse_payload (u e : Nat) :
    jsonParse (qrPayloadString u e) =
      some (payloadFields (u : Int) (e : Int)) := by
  have hcomma : ∀ (l : List Char) (c : Char),
      (',' :: l).head? = some c → isDigitChar c = false := by
    intro l c hc
    simp only [List.head?_cons, Option.some.injEq] at hc
    subst hc
    decide
  have hvalU : parseValueTok (natDigits u ++ (',' :: eventFieldChars e)) =
      some (JValue.int (u : Int), ',' :: eventFieldChars e) :=
    parseValueTok_digits u _ (hcomma _)
  have hvalE : parseValueTok (natDigits e ++ (',' :: typeFieldChars)) =
      some (JValue.int (e : Int), ',' :: typeFieldChars) :=
    parseValueTok_digits e _ (hcomma _)
  obtain ⟨F, hF⟩ : ∃ F, (userFieldChars u e).length + 1 = F + 1 + 1 + 1 := by
    refine ⟨(natDigits u).length + (natDigits e).length + 43, ?_⟩
    simp [userFieldChars, eventFieldChars, typeFieldChars, List.length_append]
    omega
  have hfields : parseFieldsLoop ((userFieldChars u e).length + 1)
      (userFieldChars u e) [] = some (payloadFields (u : Int) (e : Int), []) := by
    rw [hF]
    show parseFieldsLoop (F + 1 + 1 + 1)
      ('"' :: 'u' :: 's' :: 'e' :: 'r' :: '_' :: 'i' :: 'd' :: '"' :: ':' ::
        (natDigits u ++ (',' :: eventFieldChars e))) [] = _
    rw [fieldsStep_user (F + 1 + 1) [] (JValue.int (u : Int)) _ _ hvalU]
    show parseFieldsLoop (F + 1 + 1)
      ('"' :: 'e' :: 'v' :: 'e' :: 'n' :: 't' :: '_' :: 'i' :: 'd' :: '"' :: ':' ::
        (natDigits e ++ (',' :: typeFieldChars)))
      ([] ++ [("user_id", JValue.int (u : Int))]) = _
    rw [fieldsStep_event (F + 1) _ (JValue.int (e : Int)) _ _ hvalE,
      fieldsStep_type (F) _]
    simp [payloadFields]
  have hred : jsonParse (qrPayloadString u e) =
      (match parseFieldsLoop ((userFieldChars u e).length + 1)
          (userFieldChars u e) [] with
        | some (fields, []) => some fields
        | _ => none) := by
    unfold jsonParse
    rw [qrPayload_data]
    rfl
  rw [hred, hfields]

/-- `decode_qr_data` recovers the payload dict from the embedded payload
string. -/
theorem decode_payload (u e : Nat) :
    QRGenerator.decode_qr_data (qrPayloadString u e) =
      payloadFields (u : Int) (e : Int) := by
  have hne : (qrPayloadString u e).data.isEmpty = false := by
    rw [qrPayload_data]
    rfl
  unfold QRGenerator.decode_qr_data
  rw [hne, jsonParse_payload]
  rfl

/-- `decode_qr_data` applied to the string `generate_rsvp_qr` returns — the
PNG data URI — yields the empty dict, whatever the image bytes are: a `data:`
URI is not JSON (`json.loads` fails at the first character). -/
theorem decode_data_uri (img : String) :
    QRGenerator.decode_qr_data ("data:image/png;base64," ++ img) = [] := rfl

/-- The payload dict of a positive pair passes `validate_rsvp_qr_data`. -/
theorem validate_payload_fields (u e : Int) (hu : 0 < u) (he : 0 < e) :
    QRGenerator.validate_rsvp_qr_data (payloadFields u e) = true := by
  have h0 : QRGenerator.validate_rsvp_qr_data (payloadFields u e) =
      (true && true && true && true && decide (0 < u) && decide (0 < e)) := rfl
  rw [h0]
  simp [hu, he]

/-- C8 counterexample: the opaque string the credential issuer returns for
the valid pair (1, 1) is a PNG data URI, and decoding that very string yields
the empty dict, which validation rejects — decode after issue is not the
identity, and the issuer's return value would be rejected as
InvalidCredential. -/
theorem c8_issue_decode_rejected :
    QRGenerator.generate_rsvp_qr 1 1 "iVBORw0KGgo" =
      Except.ok "data:image/png;base64,iVBORw0KGgo" ∧
    QRGenerator.decode_qr_data "data:image/png;base64,iVBORw0KGgo" = [] ∧
    QRGenerator.validate_rsvp_qr_data
      (QRGenerator.decode_qr_data "data:image/png;base64,iVBORw0KGgo") = false := by
  refine ⟨by decide, by decide, by decide⟩

/-- C8 as amended: for every positive pair the issuer returns a PNG data URI
(never valid JSON, so decoding the returned string itself yields the empty,
rejected dict), while the JSON payload string it embeds in the QR image — the
string a scanner hands to the decoder — decodes to exactly
`{"user_id": u, "event_id": e, "type": "rsvp_checkin"}` and passes
validation: the round-trip holds for the embedded payload, not for the
returned data URI. -/
theorem c8_credential_roundtrip (u e : Int) (img : String)
    (hu : 0 < u) (he : 0 < e) :
    QRGenerator.generate_rsvp_qr u e img =
      Except.ok ("data:image/png;base64," ++ img) ∧
    QRGenerator.decode_qr_data ("data:image/png;base64," ++ img) = [] ∧
    QRGenerator.decode_qr_data (qrPayloadString u.toNat e.toNat) =
      payloadFields u e ∧
    QRGenerator.validate_rsvp_qr_data (payloadFields u e) = true := by
  have hcast : payloadFields ((u.toNat : Int)) ((e.toNat : Int)) =
      payloadFields u e := by
    rw [Int.toNat_of_nonneg (le_of_lt hu), Int.toNat_of_nonneg (le_of_lt he)]
  refine ⟨?_, decode_data_uri img, ?_, validate_payload_fields u e hu he⟩
  · unfold QRGenerator.generate_rsvp_qr
    rw [if_neg (by omega)]
  · rw [decode_payload, hcast]

/-- C8 witness: the amended round-trip at the concrete pair (3, 5). -/
theorem c8_credential_roundtrip_witness :
    QRGenerator.generate_rsvp_qr 3 5 "AAAA" =
      Except.ok ("data:image/png;base64," ++ "AAAA") ∧
    QRGenerator.decode_qr_data ("data:image/png;base64," ++ "AAAA") = [] ∧
    QRGenerator.decode_qr_data
      (qrPayloadString (Int.toNat 3) (Int.toNat 5)) = payloadFields 3 5 ∧
    QRGenerator.validate_rsvp_qr_data (payloadFields 3 5) = true :=
  c8_credential_roundtrip 3 5 "AAAA" (by decide) (by decide)

/-- C10: for every credential payload binding a positive (userId, eventId)
that passes decoding and event-match validation, the `validate_qr_code`
mutation behaves exactly as `check_in_attendee` called with `rsvp_id := the
encoded user id` — the RSVP looked up, guarded and transitioned is the one
whose primary key equals the encoded user id, not the RSVP of the encoded
(user, event) pair. -/
theorem c10_qr_checkin_uses_user_id (db : DB) (u e caller now : Int)
    (hu : 0 < u) (he : 0 < e) :
    Mutation.validate_qr_code db (qrPayloadString u.toNat e.toNat) e caller now =
      RSVPService.check_in_attendee db u caller now := by
  have hdec : QRGenerator.decode_qr_data (qrPayloadString u.toNat e.toNat) =
      payloadFields u e := by
    rw [decode_payload, Int.toNat_of_nonneg (le_of_lt hu),
      Int.toNat_of_nonneg (le_of_lt he)]
  have hval : QRGenerator.validate_rsvp_qr_data (payloadFields u e) = true :=
    validate_payload_fields u e hu he
  have hj1 : jget (payloadFields u e) "event_id" = some (JValue.int e) := rfl
  have hj2 : jget (payloadFields u e) "user_id" = some (JValue.int u) := rfl
  unfold Mutation.validate_qr_code
  rw [hdec]
  simp [hval, hj1, hj2]

/-- C10 witness: the concrete payload for (1, 1) drives check-in of the RSVP
whose primary key is 1. -/
theorem c10_qr_checkin_uses_user_id_witness :
    Mutation.validate_qr_code dbConfirmed
      (qrPayloadString (Int.toNat 1) (Int.toNat 1)) 1 10 50 =
      RSVPService.check_in_attendee dbConfirmed 1 10 50 :=
  c10_qr_checkin_uses_user_id dbConfirmed 1 1 10 50 (by decide) (by decide)

end EventRSVP
